import Mathlib

/-!
Verification of the glioseg patient/scan/segmentation-result lifecycle.

Shallow embedding of `src/backend/main.py` (the FastAPI orchestration layer)
and `src/V1/backend/segmentation.py` (inference and artifact persistence, the
module `main.py` imports as `segmentation`).

Modelling conventions, stated once:
* The MongoDB collection is a list of `Patient` documents; `find_one` is the
  first match in list order, `insert_one` appends, and `update_one` with
  `$push`/`$set` rewrites the first matching document (`updateFirst`).
* `uuid.uuid4()` is a fresh-identifier supply: the world carries a counter
  `nextUuid`, each generated identifier is the current counter value and the
  counter increments.  uuid strings are therefore modelled as naturals; the
  code only ever compares them for equality.
* `datetime.now()` is a world clock `now : Nat` (its value is never inspected
  by the code beyond being stored).
* The filesystem is a map `String -> Option FileData`; `os.makedirs` creates
  directories only, never file content, and is modelled as a no-op on that
  map.  Writing a file overwrites the previous entry at its path.
* Fallible library calls (volume decoding by torchio, `torch.load` of the
  model weights, `plt.savefig`, `tio.ScalarImage.save`) are oracles in `Env`,
  each returning `Except String` with the Python exception's message.
* Python exceptions are `PyExc`: `http s d` models `fastapi.HTTPException`
  (whose `str()` is "status: detail", per starlette), `exc m` models any
  other exception with message `m`.  An `except Exception` block catches
  both, exactly as in Python, where `HTTPException` subclasses `Exception`.
* Floating point appears only in the tumour-volume scalar
  (`np.sum(pred > 0) * 0.001`); it is modelled in `Rat`, which is exact on
  the only operations performed (count and one fixed scaling).
-/

set_option maxRecDepth 40000

/-- A 3D volume: three dimensions and an integer voxel field (intensities for
scalar images, labels 0..3 for predictions). -/
structure Volume where
  dim0 : Nat
  dim1 : Nat
  dim2 : Nat
  voxel : Nat → Nat → Nat → Int

/-- Contents of one file in the artifact store.  `raw` holds uploaded or
zip-extracted bytes, `png` a rendered slice figure (content abstracted: the
code never reads slice images back), `mask` the label volume written by
`save_segmentation_mask` (`tio.ScalarImage(tensor=pred).save`). -/
inductive FileData where
  | raw (bytes : List Nat)
  | png
  | mask (pred : Volume)

/-- `class Scan(BaseModel)` of `src/backend/main.py`. -/
structure Scan where
  scan_id : Nat
  t1c : String
  t1n : String
  t2f : String
  t2w : String
  upload_timestamp : Nat
  radiologist_notes : Option String
deriving DecidableEq

/-- `class SegmentationResult(BaseModel)` of `src/backend/main.py`. -/
structure SegmentationResult where
  scan_id : Nat
  result_id : Nat
  mask_path : String
  mri_slice_paths : List String
  overlay_slice_paths : List String
  tumor_volume : Option Rat
  confidence_score : Option Rat
  processing_timestamp : Nat
  radiologist_notes : Option String
deriving DecidableEq, Inhabited

/-- `class Patient(BaseModel)` of `src/backend/main.py`.  The Mongo `_id`
field is named `oid` (Lean reserves a leading underscore). -/
structure Patient where
  oid : Nat
  patient_id : String
  name : String
  age : Option Nat
  sex : Option String
  email : Option String
  phone : Option String
  medical_record_number : Option String
  date_of_birth : Option String
  attending_physician : Option String
  notes : Option String
  created_timestamp : Nat
  last_updated : Nat
  scans : List Scan
  segmentation_results : List SegmentationResult
deriving DecidableEq

/-- `class PatientCreate(BaseModel)` of `src/backend/main.py`. -/
structure PatientCreate where
  patient_id : String
  name : String
  age : Option Nat
  sex : Option String
  email : Option String
  phone : Option String
  medical_record_number : Option String
  date_of_birth : Option String
  attending_physician : Option String
  notes : Option String
deriving DecidableEq

/-- A multipart upload: `fastapi.UploadFile` restricted to what the code
reads (its filename and its bytes). -/
structure UploadFile where
  filename : String
  content : List Nat
deriving DecidableEq

/-- A zip upload: the archive filename and its entries (name, bytes), in
archive order (`zipfile.ZipFile.namelist` / `extractall`). -/
structure ZipUpload where
  filename : String
  entries : List (String × List Nat)
deriving DecidableEq

/-- Python exception values as the handlers observe them. -/
inductive PyExc where
  | http (status : Nat) (detail : String)
  | exc (msg : String)
deriving DecidableEq

/-- `str(e)`: starlette's `HTTPException.__str__` is `f"{status_code}: {detail}"`;
for other exceptions `str(e)` is the message. -/
def pyStr : PyExc → String
  | .http s d => toString s ++ ": " ++ d
  | .exc m => m

/-- The mutable world: the patient collection, the filesystem, the fresh-id
counter and the clock. -/
structure World where
  db : List Patient
  files : String → Option FileData
  nextUuid : Nat
  now : Nat

/-- Overwrite-or-create one file. -/
def World.setFile (w : World) (path : String) (d : FileData) : World :=
  { w with files := fun q => if q = path then some d else w.files q }

/-- `uuid.uuid4()` from the fresh supply. -/
def genId (w : World) : Nat × World :=
  (w.nextUuid, { w with nextUuid := w.nextUuid + 1 })

/-- `UPLOAD_DIR = "uploads"` (`src/backend/main.py`). -/
def UPLOAD_DIR : String := "uploads"

/-- `OUTPUT_DIR = "static/outputs"` (`src/backend/main.py`). -/
def OUTPUT_DIR : String := "static/outputs"

/-- Python `str.endswith(suffix)`: the suffix relation on the character
sequences (defined on the underlying character lists, where it computes). -/
def pyEndsWith (s suffix : String) : Bool :=
  suffix.data.isSuffixOf s.data

/-- `sanitize_patient_id`: `re.sub(r'[^a-zA-Z0-9_-]', '', patient_id)` —
keep exactly the ASCII alphanumerics, underscore, hyphen. -/
def sanitize_patient_id (s : String) : String :=
  ⟨s.data.filter fun c => c.isAlphanum || c == '_' || c == '-'⟩

/-- `get_patient`: `patient_collection.find_one({"patient_id": patient_id})` —
first document whose `patient_id` equals the query. -/
def get_patient (patient_id : String) (db : List Patient) : Option Patient :=
  db.find? fun p => p.patient_id == patient_id

/-- `update_one({"patient_id": pid}, ...)`: rewrite the first matching
document, leave the rest untouched. -/
def updateFirst (db : List Patient) (pid : String) (f : Patient → Patient) : List Patient :=
  match db with
  | [] => []
  | p :: rest => if p.patient_id == pid then f p :: rest else p :: updateFirst rest pid f

theorem setFile_db (w : World) (p : String) (d : FileData) :
    (w.setFile p d).db = w.db := rfl

theorem setFile_nextUuid (w : World) (p : String) (d : FileData) :
    (w.setFile p d).nextUuid = w.nextUuid := rfl

theorem setFile_now (w : World) (p : String) (d : FileData) :
    (w.setFile p d).now = w.now := rfl

/-! ## The inference module (`src/V1/backend/segmentation.py`) -/

/-- The preprocessed subject: one volume per modality
(`tio.Subject(t1c=..., t1n=..., t2f=..., t2w=...)`). -/
structure Subject where
  t1c : Volume
  t1n : Volume
  t2f : Volume
  t2w : Volume

/-- The external capabilities the segmentation module calls, each with the
failure behaviour of the underlying Python library:
`decodeVolume` is torchio reading a volume file (may raise on corrupt data),
`modelLoad` is `torch.load("best_model_inference.pth")` plus
`load_state_dict` (raises `FileNotFoundError` when the weights are absent),
`net` is the UNet + `sliding_window_inference` + `argmax` black box giving a
label in 0..3 per voxel of the canonical grid, `savefig` is
`plt.savefig` and `maskSave` is `tio.ScalarImage.save` (both may raise on
filesystem errors).  Error strings are the Python exception messages. -/
structure Env where
  decodeVolume : String → FileData → Except String Volume
  modelLoad : Except String Unit
  net : Volume → Volume → Volume → Volume → Nat → Nat → Nat → Fin 4
  savefig : String → Except String Unit
  maskSave : String → Except String Unit

/-- Reading one modality volume from disk (`tio.ScalarImage(path)` inside
`tio.Subject`): a missing file raises, a present file is decoded by the
`Env` oracle. -/
def readImage (env : Env) (w : World) (path : String) : Except String Volume :=
  match w.files path with
  | none => .error ("File not found: " ++ path)
  | some fd => env.decodeVolume path fd

/-- The geometric effect of the preprocessing pipeline
`tio.Compose([ToCanonical, Resample((1,1,1)), CropOrPad((128,128,128)),
ZNormalization])`: the output grid is 128x128x128 (CropOrPad), voxels taken
from the input inside its bounds and zero-padded outside.  The intensity-only
transforms (canonical reorientation, resampling, z-normalization) are
floating-point value maps on that grid; nothing downstream reads those
values, only the shape, so they are abstracted as the identity on the
sampled values. -/
def preprocessVol (v : Volume) : Volume :=
  { dim0 := 128, dim1 := 128, dim2 := 128
    voxel := fun i j k =>
      if i < v.dim0 ∧ j < v.dim1 ∧ k < v.dim2 then v.voxel i j k else 0 }

/-- `run_inference(files_dict)`: build the subject from the four modality
paths (each read may raise), preprocess, load the model (may raise), run
sliding-window inference and take the per-voxel `argmax`, a label volume on
the same 128-cubed grid as the preprocessed subject. -/
def run_inference (env : Env) (w : World) (scan : Scan) :
    Except String (Subject × Volume) :=
  match readImage env w scan.t1c with
  | .error m => .error m
  | .ok v1 =>
    match readImage env w scan.t1n with
    | .error m => .error m
    | .ok v2 =>
      match readImage env w scan.t2f with
      | .error m => .error m
      | .ok v3 =>
        match readImage env w scan.t2w with
        | .error m => .error m
        | .ok v4 =>
          let subject : Subject :=
            { t1c := preprocessVol v1, t1n := preprocessVol v2
              t2f := preprocessVol v3, t2w := preprocessVol v4 }
          match env.modelLoad with
          | .error m => .error m
          | .ok _ =>
            let pred : Volume :=
              { dim0 := 128, dim1 := 128, dim2 := 128
                voxel := fun i j k =>
                  ((env.net subject.t1c subject.t1n subject.t2f subject.t2w i j k : Fin 4) : Nat) }
            .ok (subject, pred)

/-- Path of the raw MRI slice image `i`: `patient_dir/slice_{i}.png` under
`output_dir/patient_id/scan_id`. -/
def mriSlicePath (dir pid : String) (sid i : Nat) : String :=
  dir ++ "/" ++ pid ++ "/" ++ toString sid ++ "/slice_" ++ toString i ++ ".png"

/-- Path of the overlay slice image `i`: `patient_dir/slice_{i}_overlay.png`. -/
def overlaySlicePath (dir pid : String) (sid i : Nat) : String :=
  dir ++ "/" ++ pid ++ "/" ++ toString sid ++ "/slice_" ++ toString i ++ "_overlay.png"

/-- The body of the `for i in range(num_slices)` loop of `save_slice_images`:
for each slice index, save the raw MRI figure then the overlay figure
(either `plt.savefig` may raise, leaving the earlier writes on disk), and
accumulate both path lists in slice order. -/
def saveSlicesLoop (env : Env) (dir pid : String) (sid : Nat) :
    List Nat → World → World × Except String (List String × List String)
  | [], w => (w, .ok ([], []))
  | i :: rest, w =>
    let mp := mriSlicePath dir pid sid i
    match env.savefig mp with
    | .error m => (w, .error m)
    | .ok _ =>
      let w1 := w.setFile mp .png
      let op := overlaySlicePath dir pid sid i
      match env.savefig op with
      | .error m => (w1, .error m)
      | .ok _ =>
        let w2 := w1.setFile op .png
        let res := saveSlicesLoop env dir pid sid rest w2
        (res.1, res.2.map fun msos => (mp :: msos.1, op :: msos.2))

/-- `save_slice_images(subject, pred, patient_id, scan_id, output_dir)`:
`num_slices = subject["t1c"].shape[2]`; one raw and one overlay image per
slice index along that axis, returned in index order. -/
def save_slice_images (env : Env) (subject : Subject) (_pred : Volume)
    (patient_id : String) (scan_id : Nat) (output_dir : String) (w : World) :
    World × Except String (List String × List String) :=
  saveSlicesLoop env output_dir patient_id scan_id
    (List.range subject.t1c.dim2) w

/-- Mask artifact path: `os.path.join(output_dir, patient_id,
f"{scan_id}_mask.nii.gz")` — derived from the patient and scan identifiers
only. -/
def maskFilePath (dir pid : String) (sid : Nat) : String :=
  dir ++ "/" ++ pid ++ "/" ++ toString sid ++ "_mask.nii.gz"

/-- `save_segmentation_mask(pred, patient_id, scan_id, output_dir)`: write
the label volume as a NIfTI file at the deterministic mask path (the save
may raise), return the path. -/
def save_segmentation_mask (env : Env) (pred : Volume)
    (patient_id : String) (sid : Nat) (output_dir : String) (w : World) :
    World × Except String String :=
  let mask_path := maskFilePath output_dir patient_id sid
  match env.maskSave mask_path with
  | .error m => (w, .error m)
  | .ok _ => (w.setFile mask_path (.mask pred), .ok mask_path)

/-- `np.sum(pred > 0)`: number of voxels with a non-background label. -/
def countPos (v : Volume) : Nat :=
  ((List.range v.dim0).map fun i =>
    ((List.range v.dim1).map fun j =>
      ((List.range v.dim2).filter fun k => 0 < v.voxel i j k).length).sum).sum

/-! ## The endpoints (`src/backend/main.py`) -/

/-- `handle_scan_upload(patient_id, file_paths)`: generate a scan uuid,
build the `Scan` record, look the patient up; raise 404 if absent, else
`$push` the scan and `$set last_updated`. -/
def handle_scan_upload (patient_id : String)
    (t1c t1n t2f t2w : String) (w : World) : World × Except PyExc Nat :=
  let (scan_id, w1) := genId w
  let scan : Scan :=
    { scan_id, t1c, t1n, t2f, t2w
      upload_timestamp := w1.now, radiologist_notes := none }
  match get_patient patient_id w1.db with
  | none =>
    (w1, .error (.http 404 "Patient not found. Please register patient first."))
  | some _ =>
    ({ w1 with db := updateFirst w1.db patient_id fun p =>
        { p with scans := p.scans ++ [scan], last_updated := w1.now } },
     .ok scan_id)

/-- The extension check of `upload_individual_files`:
`any(file.filename.endswith(ext) for ext in ['.nii', '.nii.gz'])`. -/
def validExt (f : UploadFile) : Bool :=
  pyEndsWith f.filename ".nii" || pyEndsWith f.filename ".nii.gz"

/-- Destination path of one modality upload: `os.path.join(patient_dir,
f"{modality}{file_extension}")` with the extension recomputed from the
uploaded filename. -/
def uploadDest (spid modality : String) (f : UploadFile) : String :=
  UPLOAD_DIR ++ "/" ++ spid ++ "/" ++ modality ++
    (if pyEndsWith f.filename ".nii.gz" then ".nii.gz" else ".nii")

/-- `POST /upload/files/{patient_id}` (`upload_individual_files`): sanitize
the id, make the patient directory, reject on the first modality whose
filename has no recognized extension (loop order t1c, t1n, t2f, t2w —
modelled by `find?` on that list), otherwise write all four files to their
destination paths and only then register the scan (which 404s when the
patient does not exist — after the writes). -/
def upload_individual_files (patient_id : String)
    (t1c t1n t2f t2w : UploadFile) (w : World) :
    World × Except PyExc (String × Nat) :=
  let spid := sanitize_patient_id patient_id
  let files_to_upload : List (String × UploadFile) :=
    [("t1c", t1c), ("t1n", t1n), ("t2f", t2f), ("t2w", t2w)]
  match files_to_upload.find? fun mf => ! validExt mf.2 with
  | some mf =>
    (w, .error (.http 400
      ("Invalid file format for " ++ mf.1 ++ ". Expected .nii or .nii.gz")))
  | none =>
    let w1 := files_to_upload.foldl
      (fun wa mf => wa.setFile (uploadDest spid mf.1 mf.2) (.raw mf.2.content)) w
    match handle_scan_upload spid
        (uploadDest spid "t1c" t1c) (uploadDest spid "t1n" t1n)
        (uploadDest spid "t2f" t2f) (uploadDest spid "t2w" t2w) w1 with
    | (w2, .error e) => (w2, .error e)
    | (w2, .ok scan_id) => (w2, .ok (spid, scan_id))

/-- `required_files = {"t1c.nii.gz", "t1n.nii.gz", "t2f.nii.gz", "t2w.nii.gz"}`. -/
def requiredZipEntries : List String :=
  ["t1c.nii.gz", "t1n.nii.gz", "t2f.nii.gz", "t2w.nii.gz"]

/-- The required entries absent from the archive
(`required_files - set(z.namelist())`; Python iterates the set in an
unspecified order, modelled by the fixed order of `requiredZipEntries`). -/
def zipMissing (z : ZipUpload) : List String :=
  requiredZipEntries.filter fun e => ! (z.entries.map Prod.fst).contains e

/-- `validate_zip_structure(zip_file)`: raise 400 naming the missing entries
when any required entry is absent. -/
def validate_zip_structure (z : ZipUpload) : Except PyExc Unit :=
  if zipMissing z = [] then .ok ()
  else .error (.http 400
    ("Missing required files in zip: " ++ String.intercalate ", " (zipMissing z)))

/-- `POST /upload/zip/{patient_id}` (`upload_zip_file`): sanitize the id,
reject non-`.zip` filenames, validate the archive structure BEFORE
extraction, then `extractall` into the patient directory (one write per
entry, in archive order) and register the scan from the four fixed paths. -/
def upload_zip_file (patient_id : String) (z : ZipUpload) (w : World) :
    World × Except PyExc (String × Nat) :=
  let spid := sanitize_patient_id patient_id
  if ! pyEndsWith z.filename ".zip" then
    (w, .error (.http 400 "Invalid file type. Please upload a zip file."))
  else
    match validate_zip_structure z with
    | .error e => (w, .error e)
    | .ok _ =>
      let w1 := z.entries.foldl
        (fun wa e => wa.setFile (UPLOAD_DIR ++ "/" ++ spid ++ "/" ++ e.1) (.raw e.2)) w
      let path := fun (name : String) => UPLOAD_DIR ++ "/" ++ spid ++ "/" ++ name
      match handle_scan_upload spid (path "t1c.nii.gz") (path "t1n.nii.gz")
          (path "t2f.nii.gz") (path "t2w.nii.gz") w1 with
      | (w2, .error e) => (w2, .error e)
      | (w2, .ok scan_id) => (w2, .ok (spid, scan_id))

/-- `POST /patients/register` (`register_patient`): 400 when a patient with
this business id already exists, else insert a fresh document with the
CLIENT-SUPPLIED `patient_id` — the code performs no sanitization here —
empty scan and result sequences, and both timestamps set to now. -/
def register_patient (pd : PatientCreate) (w : World) :
    World × Except PyExc String :=
  match get_patient pd.patient_id w.db with
  | some _ => (w, .error (.http 400 "Patient with this ID already exists"))
  | none =>
    let (oid, w1) := genId w
    let p : Patient :=
      { oid, patient_id := pd.patient_id, name := pd.name, age := pd.age
        sex := pd.sex, email := pd.email, phone := pd.phone
        medical_record_number := pd.medical_record_number
        date_of_birth := pd.date_of_birth
        attending_physician := pd.attending_physician, notes := pd.notes
        created_timestamp := w1.now, last_updated := w1.now
        scans := [], segmentation_results := [] }
    ({ w1 with db := w1.db ++ [p] }, .ok pd.patient_id)

/-- `to_static_url`: `os.path.relpath(path, "static")` for a path under
`static/` strips the leading `"static/"` (7 characters); the result is served
as `/static/<relative>` (the `os.sep` replacement is the identity on posix
paths). -/
def to_static_url (p : String) : String :=
  "/static/" ++ p.drop 7

/-- The `try:` body of `POST /segment/{patient_id}/{scan_id}`
(`segment_scan` before its `except Exception` clause): look up the patient
(404 if absent) and the scan by id among its scans (404 if absent), run
inference, save the slice images, save the mask, compute the tumour volume
`float(np.sum(pred > 0) * 0.001)` and the placeholder confidence `85.0`,
generate the result uuid, build the `SegmentationResult` with slice paths
rewritten through `to_static_url`, and `$push` it onto the patient's
`segmentation_results` (also `$set last_updated`) — the sole database write,
last in the pipeline. -/
def segment_body (env : Env) (patient_id : String) (sid : Nat)
    (radiologist_notes : Option String) (w : World) :
    World × Except PyExc SegmentationResult :=
  let spid := sanitize_patient_id patient_id
  match get_patient spid w.db with
  | none => (w, .error (.http 404 "Patient not found"))
  | some patient =>
    match patient.scans.find? fun s => s.scan_id == sid with
    | none => (w, .error (.http 404 "Scan not found"))
    | some scan =>
      match run_inference env w scan with
      | .error m => (w, .error (.exc m))
      | .ok (subject, pred) =>
        match save_slice_images env subject pred spid sid OUTPUT_DIR w with
        | (w1, .error m) => (w1, .error (.exc m))
        | (w1, .ok (mris, overlays)) =>
          match save_segmentation_mask env pred spid sid UPLOAD_DIR w1 with
          | (w2, .error m) => (w2, .error (.exc m))
          | (w2, .ok mask_path) =>
            let tumor_volume : Rat := (countPos pred : Rat) / 1000
            let (result_id, w3) := genId w2
            let result : SegmentationResult :=
              { scan_id := sid, result_id, mask_path
                mri_slice_paths := mris.map to_static_url
                overlay_slice_paths := overlays.map to_static_url
                tumor_volume := some tumor_volume
                confidence_score := some 85
                processing_timestamp := w3.now
                radiologist_notes }
            let w4 := { w3 with db := updateFirst w3.db spid fun p =>
                { p with segmentation_results := p.segmentation_results ++ [result]
                         last_updated := w3.now } }
            (w4, .ok result)

/-- `POST /segment/{patient_id}/{scan_id}` (`segment_scan`): the whole body
runs inside `try: ... except Exception as e: raise HTTPException(500,
f"Internal server error: {str(e)}")`.  `HTTPException` subclasses
`Exception`, so the handler's own 404s raised inside the `try` are caught
and re-wrapped as 500s too — faithfully modelled here. -/
def segment_scan (env : Env) (patient_id : String) (sid : Nat)
    (radiologist_notes : Option String) (w : World) :
    World × Except PyExc SegmentationResult :=
  match segment_body env patient_id sid radiologist_notes w with
  | (w1, .ok r) => (w1, .ok r)
  | (w1, .error e) =>
    (w1, .error (.http 500 ("Internal server error: " ++ pyStr e)))

/-- The result a successful `segment_scan` returns (`default` on failure). -/
def segRes (env : Env) (patient_id : String) (sid : Nat)
    (notes : Option String) (w : World) : SegmentationResult :=
  match (segment_scan env patient_id sid notes w).2 with
  | .ok r => r
  | .error _ => default

/-- Did a call succeed? -/
def resOk {ε α : Type} : Except ε α → Bool
  | .ok _ => true
  | .error _ => false

/-- The label volume `run_inference` yields for the named patient's scan in
a given world, together with the preprocessed subject (`none` when lookup or
inference fails). -/
def inferOf (env : Env) (patient_id : String) (sid : Nat) (w : World) :
    Option (Subject × Volume) :=
  match get_patient (sanitize_patient_id patient_id) w.db with
  | none => none
  | some p =>
    match p.scans.find? fun s => s.scan_id == sid with
    | none => none
    | some scan => (run_inference env w scan).toOption

/-- The exception the `try` body of `segment_scan` raises, before the
`except Exception` clause wraps it (`none` on success). -/
def segCause (env : Env) (patient_id : String) (sid : Nat)
    (notes : Option String) (w : World) : Option PyExc :=
  match (segment_body env patient_id sid notes w).2 with
  | .ok _ => none
  | .error e => some e

/-- The detail string of the error `segment_scan` surfaces (empty string on
success). -/
def segDetail (env : Env) (patient_id : String) (sid : Nat)
    (notes : Option String) (w : World) : String :=
  match (segment_scan env patient_id sid notes w).2 with
  | .ok _ => ""
  | .error (.http _ d) => d
  | .error (.exc m) => m

/-! ## Concrete fixtures for witnesses and counterexamples -/

/-- A tiny decodable volume. -/
def vol0 : Volume :=
  { dim0 := 1, dim1 := 1, dim2 := 1, voxel := fun _ _ _ => 1 }

/-- One uploaded scan for patient `P1`, at the paths the upload endpoint
produces. -/
def scan0 : Scan :=
  { scan_id := 0
    t1c := "uploads/P1/t1c.nii.gz", t1n := "uploads/P1/t1n.nii.gz"
    t2f := "uploads/P1/t2f.nii.gz", t2w := "uploads/P1/t2w.nii.gz"
    upload_timestamp := 0, radiologist_notes := none }

/-- Patient `P1` holding `scan0` and no results yet. -/
def patient0 : Patient :=
  { oid := 100, patient_id := "P1", name := "Alice"
    age := none, sex := none, email := none, phone := none
    medical_record_number := none, date_of_birth := none
    attending_physician := none, notes := none
    created_timestamp := 0, last_updated := 0
    scans := [scan0], segmentation_results := [] }

/-- A store holding the four uploaded modality files of `scan0`. -/
def store0 : String → Option FileData := fun p =>
  if p = "uploads/P1/t1c.nii.gz" ∨ p = "uploads/P1/t1n.nii.gz"
      ∨ p = "uploads/P1/t2f.nii.gz" ∨ p = "uploads/P1/t2w.nii.gz" then
    some (.raw [1])
  else none

/-- A world with patient `P1` and their scan on disk. -/
def w0 : World := { db := [patient0], files := store0, nextUuid := 200, now := 5 }

/-- A world with no patients and an empty store. -/
def wEmpty : World := { db := [], files := fun _ => none, nextUuid := 0, now := 0 }

/-- An environment where every external capability succeeds. -/
def envOk : Env :=
  { decodeVolume := fun _ _ => .ok vol0
    modelLoad := .ok ()
    net := fun _ _ _ _ _ _ _ => 1
    savefig := fun _ => .ok ()
    maskSave := fun _ => .ok () }

/-- All result identifiers already stored sit strictly below the fresh-id
counter: every identifier "previously generated" by the uuid supply.  Holds
of every reachable world since identifiers are handed out in counter order. -/
def idsBelowCounter (w : World) : Bool :=
  w.db.all fun p => p.segmentation_results.all fun r =>
    decide (r.result_id < w.nextUuid)

/-- An environment whose model-weights load fails (`FileNotFoundError`). -/
def envNoWeights : Env :=
  { decodeVolume := fun _ _ => .ok vol0
    modelLoad := .error "[Errno 2] No such file or directory: best_model_inference.pth"
    net := fun _ _ _ _ _ _ _ => 1
    savefig := fun _ => .ok ()
    maskSave := fun _ => .ok () }

/-- An environment whose model invocation fails differently (out of memory). -/
def envOom : Env :=
  { decodeVolume := fun _ _ => .ok vol0
    modelLoad := .error "CUDA error: out of memory"
    net := fun _ _ _ _ _ _ _ => 1
    savefig := fun _ => .ok ()
    maskSave := fun _ => .ok () }

/-- A well-formed uploaded volume file. -/
def niiUpload : UploadFile := { filename := "vol.nii.gz", content := [7] }

/-- A ZERO-BYTE upload carrying a recognized volume extension. -/
def emptyNii : UploadFile := { filename := "t1c.nii.gz", content := [] }

/-- An upload whose filename has no recognized volume extension. -/
def txtUpload : UploadFile := { filename := "notes.txt", content := [7] }

/-- A zip archive missing exactly the `t2w.nii.gz` entry. -/
def zipMissingT2w : ZipUpload :=
  { filename := "scan.zip"
    entries := [("t1c.nii.gz", [1]), ("t1n.nii.gz", [2]), ("t2f.nii.gz", [3])] }

/-- A registration request whose business id contains characters outside the
restricted set (space, slashes, dots). -/
def pdBad : PatientCreate :=
  { patient_id := "P 1/../x", name := "Bob"
    age := none, sex := none, email := none, phone := none
    medical_record_number := none, date_of_birth := none
    attending_physician := none, notes := none }

/-! ## Structural lemmas -/

theorem saveSlicesLoop_world (env : Env) (dir pid : String) (sid : Nat) :
    ∀ (l : List Nat) (w : World),
      (saveSlicesLoop env dir pid sid l w).1.db = w.db
      ∧ (saveSlicesLoop env dir pid sid l w).1.nextUuid = w.nextUuid
      ∧ (saveSlicesLoop env dir pid sid l w).1.now = w.now := by
  intro l
  induction l with
  | nil => intro w; exact ⟨rfl, rfl, rfl⟩
  | cons i rest ih =>
    intro w
    simp only [saveSlicesLoop]
    cases env.savefig (mriSlicePath dir pid sid i) with
    | error m => exact ⟨rfl, rfl, rfl⟩
    | ok u =>
      cases env.savefig (overlaySlicePath dir pid sid i) with
      | error m => exact ⟨rfl, rfl, rfl⟩
      | ok u2 => exact ih _

theorem except_map_ok {ε α β : Type} (f : α → β) (x : Except ε α) (y : β)
    (h : x.map f = .ok y) : ∃ a, x = .ok a ∧ y = f a := by
  cases x with
  | error e => exact Except.noConfusion h
  | ok a =>
    refine ⟨a, rfl, ?_⟩
    simpa [Except.map] using h.symm

theorem saveSlicesLoop_ok (env : Env) (dir pid : String) (sid : Nat) :
    ∀ (l : List Nat) (w : World) (ms os : List String),
      (saveSlicesLoop env dir pid sid l w).2 = .ok (ms, os) →
      ms = l.map (mriSlicePath dir pid sid) ∧ os = l.map (overlaySlicePath dir pid sid) := by
  intro l
  induction l with
  | nil =>
    intro w ms os h
    simp only [saveSlicesLoop, Except.ok.injEq, Prod.mk.injEq] at h
    obtain ⟨h1, h2⟩ := h
    exact ⟨by simp [← h1], by simp [← h2]⟩
  | cons i rest ih =>
    intro w ms os h
    simp only [saveSlicesLoop] at h
    split at h
    next => exact Except.noConfusion h
    next =>
      split at h
      next => exact Except.noConfusion h
      next =>
        obtain ⟨⟨ms', os'⟩, hok, hval⟩ := except_map_ok _ _ _ h
        obtain ⟨ihm, iho⟩ := ih _ _ _ hok
        simp only [Prod.mk.injEq] at hval
        obtain ⟨h1, h2⟩ := hval
        subst h1 h2 ihm iho
        simp

theorem save_slice_images_world (env : Env) (subject : Subject) (pred : Volume)
    (pid : String) (sid : Nat) (dir : String) (w : World) :
    (save_slice_images env subject pred pid sid dir w).1.db = w.db
    ∧ (save_slice_images env subject pred pid sid dir w).1.nextUuid = w.nextUuid
    ∧ (save_slice_images env subject pred pid sid dir w).1.now = w.now :=
  saveSlicesLoop_world env dir pid sid (List.range subject.t1c.dim2) w

theorem save_slice_images_ok (env : Env) (subject : Subject) (pred : Volume)
    (pid : String) (sid : Nat) (dir : String) (w : World) (ms os : List String)
    (h : (save_slice_images env subject pred pid sid dir w).2 = .ok (ms, os)) :
    ms = (List.range subject.t1c.dim2).map (mriSlicePath dir pid sid)
    ∧ os = (List.range subject.t1c.dim2).map (overlaySlicePath dir pid sid) :=
  saveSlicesLoop_ok env dir pid sid (List.range subject.t1c.dim2) w ms os h

theorem save_segmentation_mask_spec (env : Env) (pred : Volume)
    (pid : String) (sid : Nat) (dir : String) (w : World) :
    (save_segmentation_mask env pred pid sid dir w).1.db = w.db
    ∧ (save_segmentation_mask env pred pid sid dir w).1.nextUuid = w.nextUuid
    ∧ (save_segmentation_mask env pred pid sid dir w).1.now = w.now
    ∧ (∀ mp, (save_segmentation_mask env pred pid sid dir w).2 = .ok mp →
        mp = maskFilePath dir pid sid
        ∧ (save_segmentation_mask env pred pid sid dir w).1
            = w.setFile (maskFilePath dir pid sid) (.mask pred)) := by
  cases h : env.maskSave (maskFilePath dir pid sid) with
  | error m =>
    simp only [save_segmentation_mask, h]
    exact ⟨trivial, trivial, trivial, fun mp hmp => Except.noConfusion hmp⟩
  | ok u =>
    simp only [save_segmentation_mask, h]
    refine ⟨rfl, rfl, rfl, fun mp hmp => ?_⟩
    simp only [Except.ok.injEq] at hmp
    exact ⟨hmp.symm, trivial⟩

theorem run_inference_ok (env : Env) (w : World) (scan : Scan)
    (subj : Subject) (pred : Volume)
    (h : run_inference env w scan = .ok (subj, pred)) :
    subj.t1c.dim2 = 128 ∧ pred.dim2 = 128 ∧ subj.t1c.dim2 = pred.dim2 := by
  unfold run_inference at h
  split at h
  next => exact Except.noConfusion h
  next =>
    split at h
    next => exact Except.noConfusion h
    next =>
      split at h
      next => exact Except.noConfusion h
      next =>
        split at h
        next => exact Except.noConfusion h
        next =>
          split at h
          next => exact Except.noConfusion h
          next =>
            simp only [Except.ok.injEq, Prod.mk.injEq] at h
            obtain ⟨h1, h2⟩ := h
            subst h1 h2
            exact ⟨rfl, rfl, rfl⟩

theorem segment_scan_world (env : Env) (pid : String) (sid : Nat)
    (n : Option String) (w : World) :
    (segment_scan env pid sid n w).1 = (segment_body env pid sid n w).1 := by
  unfold segment_scan
  split
  next w1 r heq => rw [heq]
  next w1 e heq => rw [heq]

theorem segment_scan_resOk (env : Env) (pid : String) (sid : Nat)
    (n : Option String) (w : World) :
    resOk (segment_scan env pid sid n w).2 = resOk (segment_body env pid sid n w).2 := by
  unfold segment_scan
  split
  next w1 r heq => rw [heq]
  next w1 e heq => rw [heq]; rfl

theorem segment_scan_of_body_ok (env : Env) (pid : String) (sid : Nat)
    (n : Option String) (w w' : World) (r : SegmentationResult)
    (h : segment_body env pid sid n w = (w', .ok r)) :
    segment_scan env pid sid n w = (w', .ok r) := by
  unfold segment_scan
  rw [h]

theorem segment_scan_of_body_err (env : Env) (pid : String) (sid : Nat)
    (n : Option String) (w w' : World) (e : PyExc)
    (h : segment_body env pid sid n w = (w', .error e)) :
    segment_scan env pid sid n w
      = (w', .error (.http 500 ("Internal server error: " ++ pyStr e))) := by
  unfold segment_scan
  rw [h]

theorem segment_body_err_db (env : Env) (pid : String) (sid : Nat)
    (n : Option String) (w w' : World) (e : PyExc)
    (h : segment_body env pid sid n w = (w', .error e)) : w'.db = w.db := by
  simp only [segment_body] at h
  split at h
  next =>
    injection h with h1 h2
    rw [← h1]
  next patient heqP =>
    split at h
    next =>
      injection h with h1 h2
      rw [← h1]
    next scan heqS =>
      split at h
      next m heqI =>
        injection h with h1 h2
        rw [← h1]
      next subject pred heqI =>
        split at h
        next w1 m heqSl =>
          injection h with h1 h2
          have hsl := (save_slice_images_world env subject pred
            (sanitize_patient_id pid) sid OUTPUT_DIR w).1
          rw [heqSl] at hsl
          rw [← h1]
          exact hsl
        next w1 mris overlays heqSl =>
          split at h
          next w2 m heqM =>
            injection h with h1 h2
            have hsl := (save_slice_images_world env subject pred
              (sanitize_patient_id pid) sid OUTPUT_DIR w).1
            rw [heqSl] at hsl
            have hm := (save_segmentation_mask_spec env pred
              (sanitize_patient_id pid) sid UPLOAD_DIR w1).1
            rw [heqM] at hm
            rw [← h1]
            exact hm.trans hsl
          next w2 mask_path heqM =>
            simp only [genId] at h
            injection h with h1 h2
            exact Except.noConfusion h2

theorem segment_body_ok_spec (env : Env) (pid : String) (sid : Nat)
    (n : Option String) (w w' : World) (r : SegmentationResult)
    (h : segment_body env pid sid n w = (w', .ok r)) :
    ∃ subj pred, inferOf env pid sid w = some (subj, pred)
      ∧ r.scan_id = sid
      ∧ r.result_id = w.nextUuid
      ∧ r.processing_timestamp = w.now
      ∧ r.radiologist_notes = n
      ∧ r.mask_path = maskFilePath UPLOAD_DIR (sanitize_patient_id pid) sid
      ∧ r.mri_slice_paths = (List.range subj.t1c.dim2).map
          (fun i => to_static_url (mriSlicePath OUTPUT_DIR (sanitize_patient_id pid) sid i))
      ∧ r.overlay_slice_paths = (List.range subj.t1c.dim2).map
          (fun i => to_static_url (overlaySlicePath OUTPUT_DIR (sanitize_patient_id pid) sid i))
      ∧ subj.t1c.dim2 = pred.dim2
      ∧ w'.nextUuid = w.nextUuid + 1
      ∧ w'.now = w.now
      ∧ w'.files (maskFilePath UPLOAD_DIR (sanitize_patient_id pid) sid)
          = some (.mask pred)
      ∧ w'.db = updateFirst w.db (sanitize_patient_id pid) (fun p =>
          { p with segmentation_results := p.segmentation_results ++ [r]
                   last_updated := w.now }) := by
  simp only [segment_body] at h
  split at h
  next =>
    injection h with h1 h2
    exact Except.noConfusion h2
  next patient heqP =>
    split at h
    next =>
      injection h with h1 h2
      exact Except.noConfusion h2
    next scan heqS =>
      split at h
      next m heqI =>
        injection h with h1 h2
        exact Except.noConfusion h2
      next subject pred heqI =>
        split at h
        next w1 m heqSl =>
          injection h with h1 h2
          exact Except.noConfusion h2
        next w1 mris overlays heqSl =>
          split at h
          next w2 m heqM =>
            injection h with h1 h2
            exact Except.noConfusion h2
          next w2 mask_path heqM =>
            simp only [genId] at h
            injection h with h1 h2
            have hsldb : w1.db = w.db := by
              have hh := (save_slice_images_world env subject pred
                (sanitize_patient_id pid) sid OUTPUT_DIR w).1
              rw [heqSl] at hh; exact hh
            have hslid : w1.nextUuid = w.nextUuid := by
              have hh := (save_slice_images_world env subject pred
                (sanitize_patient_id pid) sid OUTPUT_DIR w).2.1
              rw [heqSl] at hh; exact hh
            have hslnow : w1.now = w.now := by
              have hh := (save_slice_images_world env subject pred
                (sanitize_patient_id pid) sid OUTPUT_DIR w).2.2
              rw [heqSl] at hh; exact hh
            have hm := save_segmentation_mask_spec env pred
              (sanitize_patient_id pid) sid UPLOAD_DIR w1
            rw [heqM] at hm
            have hmdb : w2.db = w.db := hm.1.trans hsldb
            have hmid : w2.nextUuid = w.nextUuid := hm.2.1.trans hslid
            have hmnow : w2.now = w.now := hm.2.2.1.trans hslnow
            have hmok := hm.2.2.2 mask_path rfl
            have hmp : mask_path
                = maskFilePath UPLOAD_DIR (sanitize_patient_id pid) sid := hmok.1
            have hw2 : w2 = w1.setFile
                (maskFilePath UPLOAD_DIR (sanitize_patient_id pid) sid)
                (.mask pred) := hmok.2
            obtain ⟨hmris, hovs⟩ := save_slice_images_ok env subject pred
              (sanitize_patient_id pid) sid OUTPUT_DIR w mris overlays
              (by rw [heqSl])
            obtain ⟨hd1, hd2, hd3⟩ := run_inference_ok env w scan subject pred heqI
            injection h2 with h2
            subst h1 h2
            refine ⟨subject, pred, ?_, ?_, ?_, ?_, ?_, ?_, ?_, ?_, ?_, ?_, ?_, ?_, ?_⟩
            · simp [inferOf, heqP, heqS, heqI, Except.toOption]
            · rfl
            · simp only [hmid]
            · simp only [hmnow]
            · rfl
            · simp only [hmp]
            · simp only [hmris, List.map_map]
              rfl
            · simp only [hovs, List.map_map]
              rfl
            · exact hd3
            · simp only [hmid]
            · simp only [hmnow]
            · simp [hw2, World.setFile, hmp]
            · simp only [hmdb, hmnow]

theorem get_patient_updateFirst (pid : String) (f : Patient → Patient)
    (hf : ∀ p, (f p).patient_id = p.patient_id) :
    ∀ (db : List Patient) (p : Patient), get_patient pid db = some p →
      get_patient pid (updateFirst db pid f) = some (f p) := by
  intro db
  induction db with
  | nil => intro p h; exact Option.noConfusion h
  | cons q rest ih =>
    intro p h
    by_cases hq : q.patient_id == pid
    · have hp : q = p := by
        simpa [get_patient, List.find?, hq] using h
      subst hp
      simp [get_patient, updateFirst, List.find?, hq, hf q]
    · have hrest : get_patient pid rest = some p := by
        simpa [get_patient, List.find?, hq] using h
      have := ih p hrest
      simpa [get_patient, updateFirst, List.find?, hq, hf q] using this
theorem body_ok_of_resOk (env : Env) (pid : String) (sid : Nat)
    (n : Option String) (w : World)
    (h : resOk (segment_scan env pid sid n w).2 = true) :
    ∃ r, segment_body env pid sid n w = ((segment_body env pid sid n w).1, .ok r) := by
  rw [segment_scan_resOk] at h
  cases hb : (segment_body env pid sid n w).2 with
  | error e => rw [hb] at h; exact absurd h (by simp [resOk])
  | ok r => exact ⟨r, by rw [← hb]⟩

theorem inferOf_some_patient (env : Env) (pid : String) (sid : Nat) (w : World)
    (x : Subject × Volume) (h : inferOf env pid sid w = some x) :
    ∃ p, get_patient (sanitize_patient_id pid) w.db = some p := by
  unfold inferOf at h
  cases hp : get_patient (sanitize_patient_id pid) w.db with
  | none => rw [hp] at h; exact Option.noConfusion h
  | some p => exact ⟨p, rfl⟩

theorem segRes_eq (env : Env) (pid : String) (sid : Nat) (n : Option String)
    (w W : World) (r : SegmentationResult)
    (h : segment_body env pid sid n w = (W, .ok r)) :
    segRes env pid sid n w = r := by
  unfold segRes
  rw [segment_scan_of_body_ok env pid sid n w W r h]

theorem string_append_left_cancel {s a b : String} (h : s ++ a = s ++ b) :
    a = b := by
  have hd := congrArg String.data h
  simp only [String.data_append] at hd
  exact String.ext (List.append_cancel_left hd)

theorem segDetail_of_cause (env : Env) (pid : String) (sid : Nat)
    (n : Option String) (w : World) (e : PyExc)
    (h : segCause env pid sid n w = some e) :
    segDetail env pid sid n w = "Internal server error: " ++ pyStr e := by
  unfold segCause at h
  cases hb : (segment_body env pid sid n w).2 with
  | ok r => simp only [hb] at h; exact Option.noConfusion h
  | error e' =>
    simp only [hb, Option.some.injEq] at h
    subst h
    unfold segDetail
    rw [segment_scan_of_body_err env pid sid n w
      (segment_body env pid sid n w).1 e' (by rw [← hb])]


theorem files_setFile_self (w : World) (p : String) (d : FileData) :
    (w.setFile p d).files p = some d := by
  simp [World.setFile]

theorem files_setFile_isSome (w : World) (p : String) (d : FileData) (q : String)
    (h : (w.files q).isSome = true) :
    ((w.setFile p d).files q).isSome = true := by
  simp only [World.setFile]
  split
  · rfl
  · exact h

/-! ## The claims -/

/-- C1: a SegmentationResult is appended only when lookup, inference,
artifact persistence and metric computation all succeed; whenever any step
of `segment_scan` fails before the result append, the patient collection —
every record with its scans and segmentation_results sequences and all other
fields — is exactly as before the call, so no partial result is ever
visible. -/
theorem segment_scan_failure_leaves_records (env : Env) (pid : String)
    (sid : Nat) (notes : Option String) (w : World)
    (h : resOk (segment_scan env pid sid notes w).2 = false) :
    (segment_scan env pid sid notes w).1.db = w.db := by
  rw [segment_scan_resOk] at h
  rw [segment_scan_world]
  cases hb : (segment_body env pid sid notes w).2 with
  | ok r => rw [hb] at h; exact absurd h (by simp [resOk])
  | error e =>
    exact segment_body_err_db env pid sid notes w _ e (by rw [← hb])

/-- Witness for C1: a concrete failing invocation (scan id 99 does not exist
on patient P1) leaves the collection untouched. -/
theorem segment_scan_failure_leaves_records_witness :
    resOk (segment_scan envOk "P1" 99 none w0).2 = false
    ∧ (segment_scan envOk "P1" 99 none w0).1.db = w0.db :=
  ⟨rfl, segment_scan_failure_leaves_records envOk "P1" 99 none w0 rfl⟩

/-- C2: requesting segmentation of a scan id absent from the patient appends
nothing and leaves the result sequence length unchanged, but the
caller-visible response is HTTP 500 with detail
"Internal server error: 404: Scan not found", not the 404 "Scan not found"
the handler raises: the blanket `except Exception` catches the handler's own
`HTTPException` (a subclass of `Exception`) and re-wraps it as a 500. -/
theorem segment_scan_missing_scan_surfaces_500 :
    (segment_scan envOk "P1" 99 none w0).2
      = .error (.http 500 "Internal server error: 404: Scan not found")
    ∧ (segment_scan envOk "P1" 99 none w0).1.db = w0.db
    ∧ ((get_patient "P1" (segment_scan envOk "P1" 99 none w0).1.db).map
        fun p => p.segmentation_results.length) = some 0 :=
  ⟨rfl, rfl, rfl⟩

/-- C8: `register_patient` persists the client-supplied `patient_id` without
sanitization: registering id "P 1/../x" succeeds and stores that exact
string, which differs from its sanitized form "P1x"; the stored record is
then invisible to every endpoint that sanitizes its path parameter first. -/
theorem register_patient_stores_unsanitized_id :
    (register_patient pdBad wEmpty).2 = .ok "P 1/../x"
    ∧ ((register_patient pdBad wEmpty).1.db.map Patient.patient_id) = ["P 1/../x"]
    ∧ sanitize_patient_id "P 1/../x" = "P1x"
    ∧ "P 1/../x" ≠ sanitize_patient_id "P 1/../x"
    ∧ get_patient (sanitize_patient_id "P 1/../x")
        (register_patient pdBad wEmpty).1.db = none := by
  refine ⟨rfl, rfl, rfl, by decide, rfl⟩

/-- C4 counterexample: a zero-byte modality file whose NAME carries a valid
extension is accepted — no 400 is raised and a Scan record is appended —
refuting the claim that empty modality files fail validation. -/
theorem upload_empty_file_accepted :
    emptyNii.content = []
    ∧ (upload_individual_files "P1" emptyNii emptyNii emptyNii emptyNii w0).2
        = .ok ("P1", 200)
    ∧ ((get_patient "P1"
          (upload_individual_files "P1" emptyNii emptyNii emptyNii emptyNii w0).1.db).map
        fun p => p.scans.length) = some 2 :=
  ⟨rfl, rfl, rfl⟩

/-- C4 amended: the upload endpoint validates filename extensions only.
When some modality file's name lacks `.nii`/`.nii.gz` (the first such in
loop order t1c, t1n, t2f, t2w), it fails with 400 naming that modality, and
the world is completely unchanged: no file written, no Scan record created.
Emptiness of the files is never checked, and a request missing a file part
is rejected by the framework before the handler runs. -/
theorem upload_files_invalid_extension_rejected (pid : String)
    (t1c t1n t2f t2w : UploadFile) (w : World) (m : String) (f : UploadFile)
    (hfind : List.find? (fun mf => ! validExt mf.2)
        [("t1c", t1c), ("t1n", t1n), ("t2f", t2f), ("t2w", t2w)] = some (m, f)) :
    upload_individual_files pid t1c t1n t2f t2w w
      = (w, .error (.http 400
          ("Invalid file format for " ++ m ++ ". Expected .nii or .nii.gz"))) := by
  simp only [upload_individual_files]
  rw [hfind]

/-- Witness for the amended C4: a `.txt` first modality is rejected with the
modality named in the 400 detail and nothing changes. -/
theorem upload_files_invalid_extension_rejected_witness :
    List.find? (fun mf => ! validExt mf.2)
        [("t1c", txtUpload), ("t1n", niiUpload), ("t2f", niiUpload), ("t2w", niiUpload)]
      = some ("t1c", txtUpload)
    ∧ upload_individual_files "P1" txtUpload niiUpload niiUpload niiUpload w0
      = (w0, .error (.http 400
          ("Invalid file format for " ++ "t1c" ++ ". Expected .nii or .nii.gz"))) :=
  ⟨rfl, upload_files_invalid_extension_rejected "P1" txtUpload niiUpload niiUpload
    niiUpload w0 "t1c" txtUpload rfl⟩

/-- C3 counterexample: uploading to a nonexistent patient DOES return
NotFound with no record change, but only after writing the modality files:
with an empty store, the upload returns 404 yet the t1c destination path now
holds the uploaded bytes — refuting "no files are written to the Artifact
Store". -/
theorem upload_files_missing_patient_writes :
    (upload_individual_files "NOPE" niiUpload niiUpload niiUpload niiUpload wEmpty).2
      = .error (.http 404 "Patient not found. Please register patient first.")
    ∧ (upload_individual_files "NOPE" niiUpload niiUpload niiUpload niiUpload
        wEmpty).1.files "uploads/NOPE/t1c.nii.gz" = some (.raw [7])
    ∧ wEmpty.files "uploads/NOPE/t1c.nii.gz" = none :=
  ⟨rfl, rfl, rfl⟩

/-- C3 amended: when no patient with the (sanitized) id exists, the
individual-files upload fails with 404 and no record is created or modified —
but the failure is not free of artifact side effects: all four modality
files are written to their destination paths BEFORE the patient-existence
check runs (the last-written t2w file verifiably holds the uploaded bytes,
and every modality's destination path is populated afterwards). -/
theorem upload_files_missing_patient_writes_then_404 (pid : String)
    (t1c t1n t2f t2w : UploadFile) (w : World)
    (hp : get_patient (sanitize_patient_id pid) w.db = none)
    (h1 : validExt t1c = true) (h2 : validExt t1n = true)
    (h3 : validExt t2f = true) (h4 : validExt t2w = true) :
    (upload_individual_files pid t1c t1n t2f t2w w).2
      = .error (.http 404 "Patient not found. Please register patient first.")
    ∧ (upload_individual_files pid t1c t1n t2f t2w w).1.db = w.db
    ∧ (upload_individual_files pid t1c t1n t2f t2w w).1.files
        (uploadDest (sanitize_patient_id pid) "t2w" t2w) = some (.raw t2w.content)
    ∧ ((upload_individual_files pid t1c t1n t2f t2w w).1.files
        (uploadDest (sanitize_patient_id pid) "t1c" t1c)).isSome = true
    ∧ ((upload_individual_files pid t1c t1n t2f t2w w).1.files
        (uploadDest (sanitize_patient_id pid) "t1n" t1n)).isSome = true
    ∧ ((upload_individual_files pid t1c t1n t2f t2w w).1.files
        (uploadDest (sanitize_patient_id pid) "t2f" t2f)).isSome = true := by
  have hfind : List.find? (fun mf => ! validExt mf.2)
      [("t1c", t1c), ("t1n", t1n), ("t2f", t2f), ("t2w", t2w)] = none := by
    simp [List.find?, h1, h2, h3, h4]
  simp only [upload_individual_files, hfind, List.foldl,
    handle_scan_upload, genId, setFile_db, hp]
  refine ⟨trivial, trivial, ?_, ?_, ?_, ?_⟩
  · exact files_setFile_self _ _ _
  · exact files_setFile_isSome _ _ _ _ (files_setFile_isSome _ _ _ _
      (files_setFile_isSome _ _ _ _ (by
        rw [files_setFile_self]; rfl)))
  · exact files_setFile_isSome _ _ _ _ (files_setFile_isSome _ _ _ _ (by
      rw [files_setFile_self]; rfl))
  · exact files_setFile_isSome _ _ _ _ (by
      rw [files_setFile_self]; rfl)

/-- Witness for the amended C3: concrete upload to a world with no
patients. -/
theorem upload_files_missing_patient_writes_then_404_witness :
    get_patient (sanitize_patient_id "NOPE") wEmpty.db = none
    ∧ validExt niiUpload = true
    ∧ ((upload_individual_files "NOPE" niiUpload niiUpload niiUpload niiUpload wEmpty).2
        = .error (.http 404 "Patient not found. Please register patient first.")
      ∧ (upload_individual_files "NOPE" niiUpload niiUpload niiUpload niiUpload
          wEmpty).1.db = wEmpty.db
      ∧ (upload_individual_files "NOPE" niiUpload niiUpload niiUpload niiUpload
          wEmpty).1.files (uploadDest (sanitize_patient_id "NOPE") "t2w" niiUpload)
          = some (.raw niiUpload.content)
      ∧ ((upload_individual_files "NOPE" niiUpload niiUpload niiUpload niiUpload
          wEmpty).1.files (uploadDest (sanitize_patient_id "NOPE") "t1c" niiUpload)).isSome
          = true
      ∧ ((upload_individual_files "NOPE" niiUpload niiUpload niiUpload niiUpload
          wEmpty).1.files (uploadDest (sanitize_patient_id "NOPE") "t1n" niiUpload)).isSome
          = true
      ∧ ((upload_individual_files "NOPE" niiUpload niiUpload niiUpload niiUpload
          wEmpty).1.files (uploadDest (sanitize_patient_id "NOPE") "t2f" niiUpload)).isSome
          = true) :=
  ⟨rfl, rfl, upload_files_missing_patient_writes_then_404 "NOPE"
    niiUpload niiUpload niiUpload niiUpload wEmpty rfl rfl rfl rfl rfl⟩

/-- C5: a zip upload in which any of the four required entries is absent
fails with 400 whose detail names each missing entry (it is built from
exactly the list of absent required entries), the world is completely
unchanged — validation runs BEFORE `extractall`, so no partially-extracted
file is left behind — and every absent required entry is in the list the
message is built from. -/
theorem upload_zip_missing_entries_rejected (pid : String) (z : ZipUpload)
    (w : World)
    (hzip : pyEndsWith z.filename ".zip" = true)
    (hmiss : zipMissing z ≠ []) :
    upload_zip_file pid z w
      = (w, .error (.http 400 ("Missing required files in zip: "
          ++ String.intercalate ", " (zipMissing z))))
    ∧ ∀ e ∈ requiredZipEntries, e ∉ z.entries.map Prod.fst → e ∈ zipMissing z := by
  constructor
  · simp [upload_zip_file, hzip, validate_zip_structure, hmiss]
  · intro e he hnot
    simp only [zipMissing, List.mem_filter]
    refine ⟨he, ?_⟩
    simpa using hnot

/-- Witness for C5: a zip missing exactly `t2w.nii.gz` is rejected with that
entry named, before any write. -/
theorem upload_zip_missing_entries_rejected_witness :
    pyEndsWith zipMissingT2w.filename ".zip" = true
    ∧ zipMissing zipMissingT2w = ["t2w.nii.gz"]
    ∧ (upload_zip_file "P1" zipMissingT2w w0
        = (w0, .error (.http 400 ("Missing required files in zip: "
            ++ String.intercalate ", " (zipMissing zipMissingT2w))))
      ∧ ∀ e ∈ requiredZipEntries, e ∉ zipMissingT2w.entries.map Prod.fst →
          e ∈ zipMissing zipMissingT2w) :=
  ⟨rfl, rfl, upload_zip_missing_entries_rejected "P1" zipMissingT2w w0 rfl (by decide)⟩

/-- C7: on every successful segmentation the returned result's
`mri_slice_paths` and `overlay_slice_paths` have equal length; that length
is the slice count along the label volume's slicing axis (axis 2 of the
canonical grid); and the entry at every index `i` is exactly the static URL
of slice `i` (raw and overlay respectively) — index order, nothing
skipped. -/
theorem segment_scan_slice_lists_exhaustive (env : Env) (pid : String)
    (sid : Nat) (n : Option String) (w : World)
    (h : resOk (segment_scan env pid sid n w).2 = true) :
    (segRes env pid sid n w).mri_slice_paths.length
      = (segRes env pid sid n w).overlay_slice_paths.length
    ∧ ∀ subj pred, inferOf env pid sid w = some (subj, pred) →
        (segRes env pid sid n w).mri_slice_paths.length = pred.dim2
        ∧ ∀ i, i < pred.dim2 →
            (segRes env pid sid n w).mri_slice_paths[i]?
              = some (to_static_url
                  (mriSlicePath OUTPUT_DIR (sanitize_patient_id pid) sid i))
            ∧ (segRes env pid sid n w).overlay_slice_paths[i]?
              = some (to_static_url
                  (overlaySlicePath OUTPUT_DIR (sanitize_patient_id pid) sid i)) := by
  obtain ⟨r, hb⟩ := body_ok_of_resOk env pid sid n w h
  obtain ⟨subj', pred', hinf, hsid, hrid, hts, hnotes, hmp, hmri, hov, hdim,
    hnu, hnow, hfiles, hdb⟩ := segment_body_ok_spec env pid sid n w _ r hb
  rw [segRes_eq env pid sid n w _ r hb]
  constructor
  · rw [hmri, hov]
    simp
  · intro subj pred hinfeq
    rw [hinf] at hinfeq
    simp only [Option.some.injEq, Prod.mk.injEq] at hinfeq
    obtain ⟨hs, hp⟩ := hinfeq
    subst hs hp
    constructor
    · rw [hmri]
      simp [hdim]
    · intro i hi
      have hi' : i < subj'.t1c.dim2 := by rw [hdim]; exact hi
      rw [hmri, hov]
      constructor
      · rw [List.getElem?_map, List.getElem?_range hi']
        rfl
      · rw [List.getElem?_map, List.getElem?_range hi']
        rfl

/-- Witness for C7: the concrete successful run on patient P1's scan. -/
theorem segment_scan_slice_lists_exhaustive_witness :
    resOk (segment_scan envOk "P1" 0 none w0).2 = true
    ∧ ((segRes envOk "P1" 0 none w0).mri_slice_paths.length
        = (segRes envOk "P1" 0 none w0).overlay_slice_paths.length
      ∧ ∀ subj pred, inferOf envOk "P1" 0 w0 = some (subj, pred) →
          (segRes envOk "P1" 0 none w0).mri_slice_paths.length = pred.dim2
          ∧ ∀ i, i < pred.dim2 →
              (segRes envOk "P1" 0 none w0).mri_slice_paths[i]?
                = some (to_static_url
                    (mriSlicePath OUTPUT_DIR (sanitize_patient_id "P1") 0 i))
              ∧ (segRes envOk "P1" 0 none w0).overlay_slice_paths[i]?
                = some (to_static_url
                    (overlaySlicePath OUTPUT_DIR (sanitize_patient_id "P1") 0 i))) :=
  ⟨rfl, segment_scan_slice_lists_exhaustive envOk "P1" 0 none w0 rfl⟩

/-- C9 counterexample: two segmentation runs failing with different internal
causes (missing model weights vs. an out-of-memory error) produce DIFFERENT
caller-visible 500 details, each embedding the underlying exception's
message — `detail=f"Internal server error: {str(e)}"` leaks the internal
message, including a server file path. -/
theorem segment_error_details_differ :
    segDetail envNoWeights "P1" 0 none w0
      = "Internal server error: [Errno 2] No such file or directory: best_model_inference.pth"
    ∧ segDetail envOom "P1" 0 none w0
      = "Internal server error: CUDA error: out of memory"
    ∧ segDetail envNoWeights "P1" 0 none w0 ≠ segDetail envOom "P1" 0 none w0 := by
  refine ⟨rfl, rfl, by decide⟩

/-- C9 amended: every exception the segmentation body raises is surfaced as
a 500 whose detail is the fixed prefix "Internal server error: " followed by
the exception's own message (`str(e)`), so the caller-visible detail DOES
depend on the underlying cause: any two failures whose messages differ
produce different caller-visible details, leaking internal messages and any
paths they contain. -/
theorem segment_error_detail_embeds_cause (env1 env2 : Env)
    (pid1 pid2 : String) (sid1 sid2 : Nat) (n1 n2 : Option String)
    (w1 w2 : World) (e1 e2 : PyExc)
    (hc1 : segCause env1 pid1 sid1 n1 w1 = some e1)
    (hc2 : segCause env2 pid2 sid2 n2 w2 = some e2)
    (hne : pyStr e1 ≠ pyStr e2) :
    segDetail env1 pid1 sid1 n1 w1 = "Internal server error: " ++ pyStr e1
    ∧ segDetail env2 pid2 sid2 n2 w2 = "Internal server error: " ++ pyStr e2
    ∧ segDetail env1 pid1 sid1 n1 w1 ≠ segDetail env2 pid2 sid2 n2 w2 := by
  have hd1 := segDetail_of_cause env1 pid1 sid1 n1 w1 e1 hc1
  have hd2 := segDetail_of_cause env2 pid2 sid2 n2 w2 e2 hc2
  refine ⟨hd1, hd2, ?_⟩
  rw [hd1, hd2]
  intro hcontra
  exact hne (string_append_left_cancel hcontra)

/-- Witness for the amended C9: the two concrete failing environments. -/
theorem segment_error_detail_embeds_cause_witness :
    segCause envNoWeights "P1" 0 none w0
      = some (.exc "[Errno 2] No such file or directory: best_model_inference.pth")
    ∧ segCause envOom "P1" 0 none w0 = some (.exc "CUDA error: out of memory")
    ∧ (segDetail envNoWeights "P1" 0 none w0
        = "Internal server error: "
          ++ pyStr (.exc "[Errno 2] No such file or directory: best_model_inference.pth")
      ∧ segDetail envOom "P1" 0 none w0
        = "Internal server error: " ++ pyStr (.exc "CUDA error: out of memory")
      ∧ segDetail envNoWeights "P1" 0 none w0 ≠ segDetail envOom "P1" 0 none w0) :=
  ⟨rfl, rfl, segment_error_detail_embeds_cause envNoWeights envOom "P1" "P1" 0 0
    none none w0 w0 _ _ rfl rfl (by decide)⟩

/-- C6: re-running segmentation on the same scan is always permitted — no
guard inspects existing results — and each successful run appends one more
SegmentationResult whose identifier is fresh: the two runs' identifiers
differ from each other and from every identifier already stored (given the
fresh-supply invariant), and the patient's previously appended results all
remain, in order, followed by the first run's result and then the
second's. -/
theorem segment_scan_rerun_appends_fresh (env1 env2 : Env) (pid : String)
    (sid : Nat) (n1 n2 : Option String) (w : World)
    (hids : idsBelowCounter w = true)
    (h1 : resOk (segment_scan env1 pid sid n1 w).2 = true)
    (h2 : resOk (segment_scan env2 pid sid n2
        (segment_scan env1 pid sid n1 w).1).2 = true) :
    (segRes env1 pid sid n1 w).result_id
      ≠ (segRes env2 pid sid n2 (segment_scan env1 pid sid n1 w).1).result_id
    ∧ (∀ p ∈ w.db, ∀ r ∈ p.segmentation_results,
        r.result_id ≠ (segRes env1 pid sid n1 w).result_id
        ∧ r.result_id
          ≠ (segRes env2 pid sid n2 (segment_scan env1 pid sid n1 w).1).result_id)
    ∧ ∃ p0 p2, get_patient (sanitize_patient_id pid) w.db = some p0
        ∧ get_patient (sanitize_patient_id pid)
            (segment_scan env2 pid sid n2 (segment_scan env1 pid sid n1 w).1).1.db
            = some p2
        ∧ p2.segmentation_results
            = p0.segmentation_results
              ++ [segRes env1 pid sid n1 w,
                  segRes env2 pid sid n2 (segment_scan env1 pid sid n1 w).1] := by
  rw [segment_scan_world env1 pid sid n1 w] at h2 ⊢
  rw [segment_scan_world env2 pid sid n2 (segment_body env1 pid sid n1 w).1]
  obtain ⟨r1, hb1⟩ := body_ok_of_resOk env1 pid sid n1 w h1
  obtain ⟨r2, hb2⟩ := body_ok_of_resOk env2 pid sid n2 _ h2
  obtain ⟨subj1, pred1, hinf1, hsid1, hrid1, hts1, hnotes1, hmp1, hmri1, hov1,
    hdim1, hnu1, hnow1, hfiles1, hdb1⟩ :=
    segment_body_ok_spec env1 pid sid n1 w _ r1 hb1
  obtain ⟨subj2, pred2, hinf2, hsid2, hrid2, hts2, hnotes2, hmp2, hmri2, hov2,
    hdim2, hnu2, hnow2, hfiles2, hdb2⟩ :=
    segment_body_ok_spec env2 pid sid n2 _ _ r2 hb2
  rw [segRes_eq env1 pid sid n1 w _ r1 hb1, segRes_eq env2 pid sid n2 _ _ r2 hb2]
  have hrid2' : r2.result_id = w.nextUuid + 1 := by
    rw [hrid2, hnu1]
  simp only [idsBelowCounter, List.all_eq_true, decide_eq_true_eq] at hids
  refine ⟨?_, ?_, ?_⟩
  · rw [hrid1, hrid2']
    omega
  · intro p hp r hr
    have hlt := hids p hp r hr
    constructor
    · rw [hrid1]; omega
    · rw [hrid2']; omega
  · obtain ⟨p0, hp0⟩ := inferOf_some_patient env1 pid sid w _ hinf1
    have hfind1 := get_patient_updateFirst (sanitize_patient_id pid)
      (fun p => { p with segmentation_results := p.segmentation_results ++ [r1]
                         last_updated := w.now })
      (fun p => rfl) w.db p0 hp0
    rw [← hdb1] at hfind1
    have hfind2 := get_patient_updateFirst (sanitize_patient_id pid)
      (fun p => { p with segmentation_results := p.segmentation_results ++ [r2]
                         last_updated := (segment_body env1 pid sid n1 w).1.now })
      (fun p => rfl) (segment_body env1 pid sid n1 w).1.db _ hfind1
    rw [← hdb2] at hfind2
    refine ⟨p0, _, hp0, hfind2, ?_⟩
    simp

/-- Witness for C6: two concrete successful runs on the same scan of
patient P1. -/
theorem segment_scan_rerun_appends_fresh_witness :
    idsBelowCounter w0 = true
    ∧ resOk (segment_scan envOk "P1" 0 none w0).2 = true
    ∧ resOk (segment_scan envOk "P1" 0 none (segment_scan envOk "P1" 0 none w0).1).2 = true
    ∧ ((segRes envOk "P1" 0 none w0).result_id
        ≠ (segRes envOk "P1" 0 none (segment_scan envOk "P1" 0 none w0).1).result_id
      ∧ (∀ p ∈ w0.db, ∀ r ∈ p.segmentation_results,
          r.result_id ≠ (segRes envOk "P1" 0 none w0).result_id
          ∧ r.result_id
            ≠ (segRes envOk "P1" 0 none (segment_scan envOk "P1" 0 none w0).1).result_id)
      ∧ ∃ p0 p2, get_patient (sanitize_patient_id "P1") w0.db = some p0
          ∧ get_patient (sanitize_patient_id "P1")
              (segment_scan envOk "P1" 0 none (segment_scan envOk "P1" 0 none w0).1).1.db
              = some p2
          ∧ p2.segmentation_results
              = p0.segmentation_results
                ++ [segRes envOk "P1" 0 none w0,
                    segRes envOk "P1" 0 none (segment_scan envOk "P1" 0 none w0).1]) :=
  ⟨rfl, rfl, rfl,
    segment_scan_rerun_appends_fresh envOk envOk "P1" 0 none none w0 rfl rfl rfl⟩

/-- C10 (implicit): the mask artifact path recorded in every
SegmentationResult of a given (patient, scan) pair is the same string
`uploads/{patientId}/{scanId}_mask.nii.gz` — it is derived from the patient
and scan identifiers only and carries no result identifier — so after a
second successful run on the same scan, the file at the path referenced by
the FIRST result holds the SECOND run's label volume: the earlier mask bytes
are overwritten even though both result records persist. -/
theorem segment_scan_rerun_shares_mask_path (env1 env2 : Env) (pid : String)
    (sid : Nat) (n1 n2 : Option String) (w : World)
    (h1 : resOk (segment_scan env1 pid sid n1 w).2 = true)
    (h2 : resOk (segment_scan env2 pid sid n2
        (segment_scan env1 pid sid n1 w).1).2 = true) :
    (segRes env1 pid sid n1 w).mask_path
      = maskFilePath UPLOAD_DIR (sanitize_patient_id pid) sid
    ∧ (segRes env2 pid sid n2 (segment_scan env1 pid sid n1 w).1).mask_path
      = (segRes env1 pid sid n1 w).mask_path
    ∧ ∀ subj pred,
        inferOf env2 pid sid (segment_scan env1 pid sid n1 w).1 = some (subj, pred) →
        (segment_scan env2 pid sid n2 (segment_scan env1 pid sid n1 w).1).1.files
          (segRes env1 pid sid n1 w).mask_path = some (.mask pred) := by
  rw [segment_scan_world env1 pid sid n1 w] at h2 ⊢
  rw [segment_scan_world env2 pid sid n2 (segment_body env1 pid sid n1 w).1]
  obtain ⟨r1, hb1⟩ := body_ok_of_resOk env1 pid sid n1 w h1
  obtain ⟨r2, hb2⟩ := body_ok_of_resOk env2 pid sid n2 _ h2
  obtain ⟨subj1, pred1, hinf1, hsid1, hrid1, hts1, hnotes1, hmp1, hmri1, hov1,
    hdim1, hnu1, hnow1, hfiles1, hdb1⟩ :=
    segment_body_ok_spec env1 pid sid n1 w _ r1 hb1
  obtain ⟨subj2, pred2, hinf2, hsid2, hrid2, hts2, hnotes2, hmp2, hmri2, hov2,
    hdim2, hnu2, hnow2, hfiles2, hdb2⟩ :=
    segment_body_ok_spec env2 pid sid n2 _ _ r2 hb2
  rw [segRes_eq env1 pid sid n1 w _ r1 hb1, segRes_eq env2 pid sid n2 _ _ r2 hb2]
  refine ⟨hmp1, by rw [hmp2, hmp1], ?_⟩
  intro subj pred hinfeq
  rw [hinf2] at hinfeq
  simp only [Option.some.injEq, Prod.mk.injEq] at hinfeq
  obtain ⟨hs, hp⟩ := hinfeq
  subst hs hp
  rw [hmp1]
  exact hfiles2

/-- Witness for C10: two concrete successful runs on the same scan; the
second run's label volume sits at the path the first result references. -/
theorem segment_scan_rerun_shares_mask_path_witness :
    resOk (segment_scan envOk "P1" 0 none w0).2 = true
    ∧ resOk (segment_scan envOk "P1" 0 none (segment_scan envOk "P1" 0 none w0).1).2 = true
    ∧ ((segRes envOk "P1" 0 none w0).mask_path
        = maskFilePath UPLOAD_DIR (sanitize_patient_id "P1") 0
      ∧ (segRes envOk "P1" 0 none (segment_scan envOk "P1" 0 none w0).1).mask_path
        = (segRes envOk "P1" 0 none w0).mask_path
      ∧ ∀ subj pred,
          inferOf envOk "P1" 0 (segment_scan envOk "P1" 0 none w0).1 = some (subj, pred) →
          (segment_scan envOk "P1" 0 none (segment_scan envOk "P1" 0 none w0).1).1.files
            (segRes envOk "P1" 0 none w0).mask_path = some (.mask pred)) :=
  ⟨rfl, rfl,
    segment_scan_rerun_shares_mask_path envOk envOk "P1" 0 none none w0 rfl rfl⟩
